import Mathlib

set_option maxRecDepth 100000

/-!
Shallow embedding of the Visual Benchmarking Profiler
(`src/VisualProfiler.h`): a Chrome-Tracing JSON trace sink
(`Instrumentor`) and a scope timer (`InstrumentationTimer`).

The `std::ofstream` member is modelled as an explicit stream state:
an open flag, the bytes written to the currently open file, and the
list of already closed files (most recent first).  A write to a
stream that is not open is dropped, which is exactly what a C++
`ofstream` with no open file does (it sets `failbit` and discards the
characters; no error is ever reported to the caller).  Opening can
fail: `beginSession` takes a boolean `ok` that models whether the
destination could be opened, mirroring the fallible
`m_OutputStream.open(filePath)` call.  Machine integers: the C++
`long long` timestamps are modelled as `Int`, the `uint32_t` thread
id as `Nat`, and `int m_ProfileCount` as `Nat` (it is only ever
incremented from 0 and reset to 0).
-/

/-- The double-quote character `"`. -/
def dq : Char := Char.ofNat 34

/-- The single-quote character. -/
def sqc : Char := Char.ofNat 39

/-- The backslash character. -/
def bsl : Char := Char.ofNat 92

/-- The opening-brace character. -/
def lbrace : Char := Char.ofNat 123

/-- The closing-brace character. -/
def rbrace : Char := Char.ofNat 125

/-- Embedding of `struct ProfileResult` (lines 20-25 of the source):
name, start and end timestamps in microseconds, and the thread id. -/
structure ProfileResult where
  mName : List Char
  mExecutionStart : Int
  mExecutionEnd : Int
  mThreadID : Nat
deriving DecidableEq, Repr

/-- State of the `Instrumentor` singleton (lines 27-110): session
name, output stream (open flag, current file content, closed files),
profile counter and the session-active flag. -/
structure InstrumentorState where
  mSessionName : List Char
  mStreamOpen : Bool
  mStreamContent : List Char
  mClosedFiles : List (List Char)
  mProfileCount : Nat
  mIsSessionActive : Bool
deriving DecidableEq, Repr

namespace Instrumentor

/-- The private constructor state (line 36): default members, session
inactive, counter 0, no file open. -/
def initialState : InstrumentorState :=
  { mSessionName := "None".data
    mStreamOpen := false
    mStreamContent := []
    mClosedFiles := []
    mProfileCount := 0
    mIsSessionActive := false }

/-- One `m_OutputStream << cs` call: appended if the stream is open,
silently dropped otherwise. -/
def writeStream (s : InstrumentorState) (cs : List Char) : InstrumentorState :=
  if s.mStreamOpen then { s with mStreamContent := s.mStreamContent ++ cs } else s

/-- One `m_OutputStream.open(filePath)` call.  `ok` models whether
the destination can be opened; a C++ `open` on an already open stream
fails and changes nothing, and a failed open leaves the stream not
open. -/
def openStream (ok : Bool) (s : InstrumentorState) : InstrumentorState :=
  if s.mStreamOpen then s
  else if ok then { s with mStreamOpen := true, mStreamContent := [] } else s

/-- One `m_OutputStream.close()` call: the current content becomes a
finished file; closing a stream that is not open does nothing. -/
def closeStream (s : InstrumentorState) : InstrumentorState :=
  if s.mStreamOpen then
    { s with
      mStreamOpen := false
      mClosedFiles := s.mStreamContent :: s.mClosedFiles
      mStreamContent := [] }
  else s

/-- The bytes of `WriteHeader` (line 101). -/
def headerChars : List Char := "\x7b\"otherData\": \x7b\x7d,\"traceEvents\":[".data

/-- The bytes of `WriteFooter` (line 107). -/
def footerChars : List Char := "]\x7d".data

/-- `WriteHeader` (lines 99-103); the flush has no effect in this model. -/
def writeHeader (s : InstrumentorState) : InstrumentorState :=
  writeStream s headerChars

/-- `WriteFooter` (lines 105-109). -/
def writeFooter (s : InstrumentorState) : InstrumentorState :=
  writeStream s footerChars

/-- `EndSession` (lines 62-72): no-op when inactive, else clear the
active flag, write the footer, close the stream and reset the counter. -/
def endSession (s : InstrumentorState) : InstrumentorState :=
  if s.mIsSessionActive then
    let s1 := { s with mIsSessionActive := false }
    let s2 := writeFooter s1
    let s3 := closeStream s2
    { s3 with mProfileCount := 0 }
  else s

/-- `BeginSession` (lines 50-60): end a still-active prior session,
set the active flag, open the destination (`ok` models success),
write the header, store the session name.  Note the counter is not
touched and the active flag is set before the open is attempted. -/
def beginSession (ok : Bool) (name : List Char) (s : InstrumentorState) :
    InstrumentorState :=
  let s0 := if s.mIsSessionActive then endSession s else s
  let s1 := { s0 with mIsSessionActive := true }
  let s2 := openStream ok s1
  let s3 := writeHeader s2
  { s3 with mSessionName := name }

end Instrumentor

/-- `std::replace(name.begin(), name.end(), '"', '\'')` (line 84):
every double-quote character becomes a single quote, all other
characters are untouched. -/
def sanitize (l : List Char) : List Char :=
  l.map fun c => if c = dq then sqc else c

/-- Bytes of the literal at line 86. -/
def objOpen : List Char := "\x7b".data

/-- Bytes of the literal at line 87. -/
def catPiece : List Char := "\"cat\":\"function\",".data

/-- Bytes of the first literal at line 88. -/
def durPre : List Char := "\"dur\":".data

/-- Bytes of the first literal at line 89. -/
def namePre : List Char := "\"name\":\"".data

/-- Bytes of the second literal at line 89. -/
def nameSuf : List Char := "\",".data

/-- Bytes of the literal at line 90. -/
def phPiece : List Char := "\"ph\":\"X\",".data

/-- Bytes of the literal at line 91. -/
def pidPiece : List Char := "\"pid\":0,".data

/-- Bytes of the first literal at line 92. -/
def tidPre : List Char := "\"tid\":".data

/-- Bytes of the first literal at line 93. -/
def tsPre : List Char := "\"ts\":".data

/-- Bytes of the literal at line 94. -/
def objClose : List Char := "\x7d".data

/-- Decimal rendering of an `Int`, as `operator<<(ostream, long long)`
produces it. -/
def intText (i : Int) : List Char := (toString i).data

/-- Decimal rendering of a `Nat`, as `operator<<(ostream, uint32_t)`
produces it. -/
def natText (n : Nat) : List Char := (toString n).data

/-- The full byte sequence one `WriteProfile` call sends to the
stream after the optional separating comma (lines 86-94). -/
def profileRecord (result : ProfileResult) : List Char :=
  objOpen ++ catPiece
    ++ durPre ++ intText (result.mExecutionEnd - result.mExecutionStart) ++ [',']
    ++ namePre ++ sanitize result.mName ++ nameSuf
    ++ phPiece ++ pidPiece
    ++ tidPre ++ natText result.mThreadID ++ [',']
    ++ tsPre ++ intText result.mExecutionStart
    ++ objClose

namespace Instrumentor

/-- `WriteProfile` (lines 74-97).  The post-increment
`m_ProfileCount++ > 0` tests the old value and always increments;
each `<<` of line 86-94 is one `writeStream` call (grouped per
source line); the lock and the flush have no effect in this
sequential model. -/
def writeProfile (s : InstrumentorState) (result : ProfileResult) :
    InstrumentorState :=
  let s1 := if s.mProfileCount > 0 then writeStream s [','] else s
  let s2 := { s1 with mProfileCount := s.mProfileCount + 1 }
  let name := sanitize result.mName
  let s3 := writeStream s2 objOpen
  let s4 := writeStream s3 catPiece
  let s5 := writeStream s4
    (durPre ++ intText (result.mExecutionEnd - result.mExecutionStart) ++ [','])
  let s6 := writeStream s5 (namePre ++ name ++ nameSuf)
  let s7 := writeStream s6 phPiece
  let s8 := writeStream s7 pidPiece
  let s9 := writeStream s8 (tidPre ++ natText result.mThreadID ++ [','])
  let s10 := writeStream s9 (tsPre ++ intText result.mExecutionStart)
  writeStream s10 objClose

end Instrumentor

/-- One call made on the `Instrumentor` singleton. -/
inductive Op where
  | beginS (ok : Bool) (name : List Char)
  | endS
  | write (r : ProfileResult)
deriving DecidableEq, Repr

namespace Instrumentor

/-- Effect of one call on the singleton state. -/
def step (s : InstrumentorState) : Op → InstrumentorState
  | Op.beginS ok name => beginSession ok name s
  | Op.endS => endSession s
  | Op.write r => writeProfile s r

/-- Effect of a sequence of calls. -/
def run (s : InstrumentorState) (ops : List Op) : InstrumentorState :=
  ops.foldl step s

/-- A state the singleton can actually be in: produced by some call
sequence from the initial state. -/
def Reachable (s : InstrumentorState) : Prop :=
  ∃ ops : List Op, run initialState ops = s

end Instrumentor

/-- Embedding of `class InstrumentationTimer` (lines 113-145):
the stopped flag, the start time (microsecond value of
`m_StartPoint`) and the label. -/
structure InstrumentationTimer where
  mStopped : Bool
  mStartTime : Int
  mName : List Char
deriving DecidableEq, Repr

namespace InstrumentationTimer

/-- The constructor (lines 121-124): stores the label, captures the
start timestamp, marks the timer not stopped. -/
def construct (name : List Char) (startTime : Int) : InstrumentationTimer :=
  { mStopped := false, mStartTime := startTime, mName := name }

/-- `Stop` (lines 134-144): captures the end timestamp and the
thread id (both inputs of this pure model), submits the completed
`ProfileResult` to the singleton via `WriteProfile`, and sets the
stopped flag.  Note the source has no check of `m_Stopped` here. -/
def stop (t : InstrumentationTimer) (endTime : Int) (tid : Nat)
    (inst : InstrumentorState) : InstrumentationTimer × InstrumentorState :=
  let result : ProfileResult :=
    { mName := t.mName
      mExecutionStart := t.mStartTime
      mExecutionEnd := endTime
      mThreadID := tid }
  ({ t with mStopped := true }, Instrumentor.writeProfile inst result)

/-- The destructor (lines 126-132), which C++ runs exactly once when
the owning scope ends on any path (fall-through, early return or
exception): calls `stop` unless the timer is already stopped. -/
def destruct (t : InstrumentationTimer) (endTime : Int) (tid : Nat)
    (inst : InstrumentorState) : InstrumentationTimer × InstrumentorState :=
  if t.mStopped then (t, inst) else stop t endTime tid inst

end InstrumentationTimer

/-! State lemmas for the trace sink. -/

namespace Instrumentor

theorem run_nil (s : InstrumentorState) : run s [] = s := rfl

theorem run_cons (s : InstrumentorState) (o : Op) (ops : List Op) :
    run s (o :: ops) = run (step s o) ops := rfl

theorem writeStream_open {s : InstrumentorState} (h : s.mStreamOpen = true)
    (cs : List Char) :
    writeStream s cs = { s with mStreamContent := s.mStreamContent ++ cs } := by
  simp [writeStream, h]

theorem writeStream_closed {s : InstrumentorState} (h : s.mStreamOpen = false)
    (cs : List Char) : writeStream s cs = s := by
  simp [writeStream, h]

theorem writeProfile_open {s : InstrumentorState} (h : s.mStreamOpen = true)
    (r : ProfileResult) :
    writeProfile s r =
      { s with
        mStreamContent := s.mStreamContent
          ++ (if s.mProfileCount > 0 then [','] else []) ++ profileRecord r
        mProfileCount := s.mProfileCount + 1 } := by
  obtain ⟨nm, so, sc, cf, pc, act⟩ := s
  cases so
  · simp at h
  · by_cases hp : pc > 0 <;>
      simp [writeProfile, writeStream, profileRecord, hp, List.append_assoc]

theorem writeProfile_closed {s : InstrumentorState} (h : s.mStreamOpen = false)
    (r : ProfileResult) :
    writeProfile s r = { s with mProfileCount := s.mProfileCount + 1 } := by
  obtain ⟨nm, so, sc, cf, pc, act⟩ := s
  cases so
  · by_cases hp : pc > 0 <;> simp [writeProfile, writeStream, hp]
  · simp at h

theorem endSession_inactive {s : InstrumentorState}
    (h : s.mIsSessionActive = false) : endSession s = s := by
  simp [endSession, h]

theorem endSession_active_open {s : InstrumentorState}
    (h1 : s.mIsSessionActive = true) (h2 : s.mStreamOpen = true) :
    endSession s =
      { s with
        mIsSessionActive := false
        mStreamOpen := false
        mStreamContent := []
        mClosedFiles := (s.mStreamContent ++ footerChars) :: s.mClosedFiles
        mProfileCount := 0 } := by
  obtain ⟨nm, so, sc, cf, pc, act⟩ := s
  cases act
  · simp at h1
  · cases so
    · simp at h2
    · simp [endSession, writeFooter, writeStream, closeStream]

theorem endSession_active_closed {s : InstrumentorState}
    (h1 : s.mIsSessionActive = true) (h2 : s.mStreamOpen = false) :
    endSession s = { s with mIsSessionActive := false, mProfileCount := 0 } := by
  obtain ⟨nm, so, sc, cf, pc, act⟩ := s
  cases act
  · simp at h1
  · cases so
    · simp [endSession, writeFooter, writeStream, closeStream]
    · simp at h2

theorem endSession_not_active {s : InstrumentorState}
    (h : s.mIsSessionActive = true) :
    (endSession s).mIsSessionActive = false := by
  obtain ⟨nm, so, sc, cf, pc, act⟩ := s
  cases act
  · simp at h
  · cases so <;> simp [endSession, writeFooter, writeStream, closeStream]

theorem beginSession_active {s : InstrumentorState}
    (h : s.mIsSessionActive = true) (ok : Bool) (name : List Char) :
    beginSession ok name s = beginSession ok name (endSession s) := by
  have h2 := endSession_not_active h
  simp [beginSession, h, h2]

theorem beginSession_inactive_closed_ok {s : InstrumentorState}
    (h1 : s.mIsSessionActive = false) (h2 : s.mStreamOpen = false)
    (name : List Char) :
    beginSession true name s =
      { s with
        mIsSessionActive := true
        mStreamOpen := true
        mStreamContent := headerChars
        mSessionName := name } := by
  obtain ⟨nm, so, sc, cf, pc, act⟩ := s
  cases act
  · cases so
    · simp [beginSession, openStream, writeHeader, writeStream]
    · simp at h2
  · simp at h1

theorem beginSession_inactive_closed_fail {s : InstrumentorState}
    (h1 : s.mIsSessionActive = false) (h2 : s.mStreamOpen = false)
    (name : List Char) :
    beginSession false name s =
      { s with mIsSessionActive := true, mSessionName := name } := by
  obtain ⟨nm, so, sc, cf, pc, act⟩ := s
  cases act
  · cases so
    · simp [beginSession, openStream, writeHeader, writeStream]
    · simp at h2
  · simp at h1

/-- Invariant of every reachable singleton state: when no session is
active the stream is closed, and a closed stream holds no pending
content. -/
def GoodState (s : InstrumentorState) : Prop :=
  (s.mIsSessionActive = false → s.mStreamOpen = false) ∧
  (s.mStreamOpen = false → s.mStreamContent = [])

theorem goodState_initial : GoodState initialState := by
  constructor <;> simp [initialState]

theorem goodState_step {s : InstrumentorState} (h : GoodState s) (o : Op) :
    GoodState (step s o) := by
  obtain ⟨h1, h2⟩ := h
  obtain ⟨nm, so, sc, cf, pc, act⟩ := s
  cases o with
  | beginS ok name =>
      cases act <;> cases so <;> cases ok <;>
        simp_all [GoodState, step, beginSession, endSession, openStream,
          closeStream, writeHeader, writeFooter, writeStream]
  | endS =>
      cases act <;> cases so <;>
        simp_all [GoodState, step, endSession, closeStream, writeFooter,
          writeStream]
  | write r =>
      cases so <;> by_cases hp : pc > 0 <;>
        simp_all [GoodState, step, writeProfile, writeStream]

theorem goodState_run {s : InstrumentorState} (h : GoodState s)
    (ops : List Op) : GoodState (run s ops) := by
  induction ops generalizing s with
  | nil => exact h
  | cons o ops ih => exact ih (goodState_step h o)

theorem goodState_of_reachable {s : InstrumentorState} (h : Reachable s) :
    GoodState s := by
  obtain ⟨ops, rfl⟩ := h
  exact goodState_run goodState_initial ops

end Instrumentor

/-! Comma-separated emission of a session's records. -/

/-- All given records, each preceded by a separating comma. -/
def commaRecords : List (List Char) → List Char
  | [] => []
  | r :: rest => ',' :: (r ++ commaRecords rest)

/-- The given records joined by single separating commas, with no
leading and no trailing comma. -/
def joinComma : List (List Char) → List Char
  | [] => []
  | r :: rest => r ++ commaRecords rest

/-- The bytes a sequence of `WriteProfile` calls sends to an open
stream when the counter starts at `n`: each record is preceded by a
comma except a first record seen while the counter is still 0. -/
def emitFrom (n : Nat) : List ProfileResult → List Char
  | [] => []
  | r :: rest =>
      (if n > 0 then [','] else []) ++ profileRecord r ++ emitFrom (n + 1) rest

theorem emitFrom_pos {n : Nat} (hn : 0 < n) (rs : List ProfileResult) :
    emitFrom n rs = commaRecords (rs.map profileRecord) := by
  induction rs generalizing n with
  | nil => simp [emitFrom, commaRecords]
  | cons r rest ih =>
      simp [emitFrom, commaRecords, hn, ih (Nat.succ_pos n)]

theorem emitFrom_zero (rs : List ProfileResult) :
    emitFrom 0 rs = joinComma (rs.map profileRecord) := by
  cases rs with
  | nil => rfl
  | cons r rest =>
      simp [emitFrom, joinComma, emitFrom_pos (Nat.succ_pos 0)]

namespace Instrumentor

/-- Effect of a whole list of `WriteProfile` calls on an open stream:
content grows by `emitFrom`, the counter by the number of calls. -/
theorem run_writes_open {s : InstrumentorState} (h : s.mStreamOpen = true)
    (rs : List ProfileResult) :
    run s (rs.map Op.write) =
      { s with
        mStreamContent := s.mStreamContent ++ emitFrom s.mProfileCount rs
        mProfileCount := s.mProfileCount + rs.length } := by
  induction rs generalizing s with
  | nil =>
      obtain ⟨nm, so, sc, cf, pc, act⟩ := s
      simp [run, emitFrom]
  | cons r rest ih =>
      obtain ⟨nm, so, sc, cf, pc, act⟩ := s
      cases so
      · simp at h
      · rw [List.map_cons, run_cons]
        have hstep : step ⟨nm, true, sc, cf, pc, act⟩ (Op.write r)
            = writeProfile ⟨nm, true, sc, cf, pc, act⟩ r := rfl
        rw [hstep, writeProfile_open rfl, ih rfl]
        simp only [emitFrom, List.length_cons, InstrumentorState.mk.injEq]
        refine ⟨trivial, trivial, by simp [List.append_assoc], trivial,
          by omega, trivial⟩

end Instrumentor

/-! A JSON syntax, used to state that the produced file is a valid
JSON document.  `Renders v cs` holds when the byte sequence `cs` is a
textual rendering of the JSON value `v`; object fields may carry one
optional space after the colon.  String contents are required to be
plain (no double quote, no backslash, no control character), so a
rendered value really is standard JSON text. -/

inductive JsonVal where
  | jstr (s : List Char)
  | jint (i : Int)
  | jnat (n : Nat)
  | jarr (xs : List JsonVal)
  | jobj (fs : List (List Char × JsonVal))

/-- Characters that may sit verbatim inside a JSON string literal. -/
def StrOk (s : List Char) : Prop :=
  ∀ c ∈ s, c ≠ dq ∧ c ≠ bsl ∧ 32 ≤ c.toNat

instance (s : List Char) : Decidable (StrOk s) := by
  unfold StrOk; infer_instance

mutual

inductive Renders : JsonVal → List Char → Prop where
  | jstr (s : List Char) : StrOk s → Renders (JsonVal.jstr s) ([dq] ++ s ++ [dq])
  | jint (i : Int) : Renders (JsonVal.jint i) (intText i)
  | jnat (n : Nat) : Renders (JsonVal.jnat n) (natText n)
  | jarr (xs : List JsonVal) (cs : List Char) :
      RendersList xs cs → Renders (JsonVal.jarr xs) ('[' :: cs ++ [']'])
  | jobj (fs : List (List Char × JsonVal)) (cs : List Char) :
      RendersFields fs cs → Renders (JsonVal.jobj fs) (lbrace :: cs ++ [rbrace])

inductive RendersList : List JsonVal → List Char → Prop where
  | nil : RendersList [] []
  | single (x : JsonVal) (cx : List Char) : Renders x cx → RendersList [x] cx
  | cons (x : JsonVal) (cx : List Char) (y : JsonVal) (ys : List JsonVal)
      (cs : List Char) :
      Renders x cx → RendersList (y :: ys) cs →
      RendersList (x :: y :: ys) (cx ++ ',' :: cs)

inductive RendersField : List Char × JsonVal → List Char → Prop where
  | mk (k : List Char) (v : JsonVal) (cv ws : List Char) :
      StrOk k → Renders v cv → (ws = [] ∨ ws = [' ']) →
      RendersField (k, v) ([dq] ++ k ++ [dq, ':'] ++ ws ++ cv)

inductive RendersFields : List (List Char × JsonVal) → List Char → Prop where
  | nil : RendersFields [] []
  | single (f : List Char × JsonVal) (cf : List Char) :
      RendersField f cf → RendersFields [f] cf
  | cons (f : List Char × JsonVal) (cf : List Char)
      (g : List Char × JsonVal) (gs : List (List Char × JsonVal))
      (cs : List Char) :
      RendersField f cf → RendersFields (g :: gs) cs →
      RendersFields (f :: g :: gs) (cf ++ ',' :: cs)

end

/-- A label whose characters survive the profiler's quote-only
sanitization as valid JSON string content: no backslash and no
control character (the double quote itself is handled by
`sanitize`). -/
def PlainLabel (l : List Char) : Prop :=
  ∀ c ∈ l, c ≠ bsl ∧ 32 ≤ c.toNat

instance (l : List Char) : Decidable (PlainLabel l) := by
  unfold PlainLabel; infer_instance

theorem strOk_sanitize {l : List Char} (h : PlainLabel l) :
    StrOk (sanitize l) := by
  intro c hc
  simp only [sanitize, List.mem_map] at hc
  obtain ⟨a, ha, rfl⟩ := hc
  obtain ⟨hb, hctl⟩ := h a ha
  by_cases hq : a = dq
  · rw [if_pos hq]
    exact ⟨by decide, by decide, by decide⟩
  · rw [if_neg hq]
    exact ⟨hq, hb, hctl⟩

/-- The JSON event object a single measurement denotes: exactly the
seven fields of lines 86-94, in source order. -/
def eventObj (r : ProfileResult) : JsonVal :=
  JsonVal.jobj
    [("cat".data, JsonVal.jstr ("function".data)),
     ("dur".data, JsonVal.jint (r.mExecutionEnd - r.mExecutionStart)),
     ("name".data, JsonVal.jstr (sanitize r.mName)),
     ("ph".data, JsonVal.jstr ("X".data)),
     ("pid".data, JsonVal.jint 0),
     ("tid".data, JsonVal.jnat r.mThreadID),
     ("ts".data, JsonVal.jint r.mExecutionStart)]

/-- The JSON document of one finished session holding the given
measurements. -/
def traceDocVal (rs : List ProfileResult) : JsonVal :=
  JsonVal.jobj
    [("otherData".data, JsonVal.jobj []),
     ("traceEvents".data, JsonVal.jarr (rs.map eventObj))]

/-- The bytes of one finished session's output file holding the given
measurements: header, comma-joined records, footer. -/
def sessionDocument (rs : List ProfileResult) : List Char :=
  Instrumentor.headerChars ++ joinComma (rs.map profileRecord)
    ++ Instrumentor.footerChars

/-! Byte-level expansions of the literal pieces. -/

theorem objOpen_chars : objOpen = [lbrace] := by decide

theorem catPiece_chars :
    catPiece = [dq, 'c', 'a', 't', dq, ':', dq, 'f', 'u', 'n', 'c', 't', 'i',
      'o', 'n', dq, ','] := by decide

theorem durPre_chars : durPre = [dq, 'd', 'u', 'r', dq, ':'] := by decide

theorem namePre_chars : namePre = [dq, 'n', 'a', 'm', 'e', dq, ':', dq] := by
  decide

theorem nameSuf_chars : nameSuf = [dq, ','] := by decide

theorem phPiece_chars : phPiece = [dq, 'p', 'h', dq, ':', dq, 'X', dq, ','] := by
  decide

theorem pidPiece_chars : pidPiece = [dq, 'p', 'i', 'd', dq, ':', '0', ','] := by
  decide

theorem tidPre_chars : tidPre = [dq, 't', 'i', 'd', dq, ':'] := by decide

theorem tsPre_chars : tsPre = [dq, 't', 's', dq, ':'] := by decide

theorem objClose_chars : objClose = [rbrace] := by decide

theorem headerChars_chars :
    Instrumentor.headerChars = [lbrace, dq, 'o', 't', 'h', 'e', 'r', 'D', 'a',
      't', 'a', dq, ':', ' ', lbrace, rbrace, ',', dq, 't', 'r', 'a', 'c', 'e',
      'E', 'v', 'e', 'n', 't', 's', dq, ':', '['] := by decide

theorem footerChars_chars : Instrumentor.footerChars = [']', rbrace] := by
  decide

theorem intText_zero : intText 0 = ['0'] := by decide

/-- The record bytes regrouped into the shape of a rendered JSON
object: opening brace, seven colon-separated fields joined by commas,
closing brace. -/
theorem profileRecord_shape (r : ProfileResult) :
    profileRecord r =
      lbrace ::
        (([dq] ++ ['c', 'a', 't'] ++ [dq, ':'] ++ ([] : List Char)
            ++ ([dq] ++ ['f', 'u', 'n', 'c', 't', 'i', 'o', 'n'] ++ [dq]))
          ++ ',' :: (([dq] ++ ['d', 'u', 'r'] ++ [dq, ':'] ++ ([] : List Char)
            ++ intText (r.mExecutionEnd - r.mExecutionStart))
          ++ ',' :: (([dq] ++ ['n', 'a', 'm', 'e'] ++ [dq, ':'] ++ ([] : List Char)
            ++ ([dq] ++ sanitize r.mName ++ [dq]))
          ++ ',' :: (([dq] ++ ['p', 'h'] ++ [dq, ':'] ++ ([] : List Char)
            ++ ([dq] ++ ['X'] ++ [dq]))
          ++ ',' :: (([dq] ++ ['p', 'i', 'd'] ++ [dq, ':'] ++ ([] : List Char)
            ++ intText 0)
          ++ ',' :: (([dq] ++ ['t', 'i', 'd'] ++ [dq, ':'] ++ ([] : List Char)
            ++ natText r.mThreadID)
          ++ ',' :: ([dq] ++ ['t', 's'] ++ [dq, ':'] ++ ([] : List Char)
            ++ intText r.mExecutionStart))))))) ++ [rbrace] := by
  simp [profileRecord, objOpen_chars, catPiece_chars, durPre_chars,
    namePre_chars, nameSuf_chars, phPiece_chars, pidPiece_chars, tidPre_chars,
    tsPre_chars, objClose_chars, intText_zero, List.append_assoc]

/-- Each emitted record is a rendering of its seven-field JSON event
object, provided the label has no backslash and no control character. -/
theorem renders_profileRecord (r : ProfileResult) (h : PlainLabel r.mName) :
    Renders (eventObj r) (profileRecord r) := by
  rw [profileRecord_shape]
  exact Renders.jobj _ _
    (RendersFields.cons _ _ _ _ _
      (RendersField.mk _ _ _ _ (by decide) (Renders.jstr _ (by decide))
        (Or.inl rfl))
      (RendersFields.cons _ _ _ _ _
        (RendersField.mk _ _ _ _ (by decide) (Renders.jint _) (Or.inl rfl))
        (RendersFields.cons _ _ _ _ _
          (RendersField.mk _ _ _ _ (by decide)
            (Renders.jstr _ (strOk_sanitize h)) (Or.inl rfl))
          (RendersFields.cons _ _ _ _ _
            (RendersField.mk _ _ _ _ (by decide) (Renders.jstr _ (by decide))
              (Or.inl rfl))
            (RendersFields.cons _ _ _ _ _
              (RendersField.mk _ _ _ _ (by decide) (Renders.jint _)
                (Or.inl rfl))
              (RendersFields.cons _ _ _ _ _
                (RendersField.mk _ _ _ _ (by decide) (Renders.jnat _)
                  (Or.inl rfl))
                (RendersFields.single _ _
                  (RendersField.mk _ _ _ _ (by decide) (Renders.jint _)
                    (Or.inl rfl)))))))))

/-- The comma-joined records of a session render the array of its
event objects. -/
theorem rendersList_events (rs : List ProfileResult)
    (h : ∀ r ∈ rs, PlainLabel r.mName) :
    RendersList (rs.map eventObj) (joinComma (rs.map profileRecord)) := by
  induction rs with
  | nil => exact RendersList.nil
  | cons r rest ih =>
      cases rest with
      | nil =>
          simp only [List.map_cons, List.map_nil, joinComma, commaRecords,
            List.append_nil]
          exact RendersList.single _ _ (renders_profileRecord r (h r (by simp)))
      | cons r2 rest2 =>
          have h1 : PlainLabel r.mName := h r (by simp)
          have h2 : ∀ x ∈ r2 :: rest2, PlainLabel x.mName := fun x hx =>
            h x (by simp [List.mem_cons] at hx ⊢; tauto)
          simp only [List.map_cons, joinComma, commaRecords]
          exact RendersList.cons _ _ _ _ _ (renders_profileRecord r h1) (ih h2)

/-- The finished file regrouped into the shape of a rendered JSON
object: brace, the `otherData` field (with the source's one space
after the colon), comma, the `traceEvents` field, brace. -/
theorem sessionDocument_shape (rs : List ProfileResult) :
    sessionDocument rs =
      lbrace ::
        (([dq] ++ ['o', 't', 'h', 'e', 'r', 'D', 'a', 't', 'a'] ++ [dq, ':']
            ++ [' '] ++ ((lbrace :: ([] : List Char)) ++ [rbrace]))
          ++ ',' :: ([dq] ++ ['t', 'r', 'a', 'c', 'e', 'E', 'v', 'e', 'n', 't', 's']
            ++ [dq, ':'] ++ ([] : List Char)
            ++ (('[' :: joinComma (rs.map profileRecord)) ++ [']'])))
        ++ [rbrace] := by
  simp [sessionDocument, headerChars_chars, footerChars_chars,
    List.append_assoc]

/-- A finished session's file is a rendering of its JSON document
value, provided every label is backslash- and control-free. -/
theorem renders_sessionDocument (rs : List ProfileResult)
    (h : ∀ r ∈ rs, PlainLabel r.mName) :
    Renders (traceDocVal rs) (sessionDocument rs) := by
  rw [sessionDocument_shape]
  exact Renders.jobj _ _
    (RendersFields.cons _ _ _ _ _
      (RendersField.mk _ _ _ _ (by decide)
        (Renders.jobj _ _ RendersFields.nil) (Or.inr rfl))
      (RendersFields.single _ _
        (RendersField.mk _ _ _ _ (by decide)
          (Renders.jarr _ _ (rendersList_events rs h)) (Or.inl rfl))))

/-! Claims about the Scope Timer. -/

/-- Claim C1: for every Scope Timer on which `Stop()` is never called
explicitly, the end of its owning scope -- modelled by the destructor,
which C++ runs exactly once whatever the exit path (fall-through,
early return or thrown error) -- invokes `Stop()` automatically, so
the instance performs exactly one `WriteProfile` submission appending
exactly one Measurement record to the Trace Sink over its lifetime,
and is left in the stopped state. -/
theorem claimC1_scope_exit_submits_once (name : List Char)
    (startT endT : Int) (tid : Nat) (inst : InstrumentorState)
    (h : inst.mStreamOpen = true) :
    InstrumentationTimer.destruct (InstrumentationTimer.construct name startT)
        endT tid inst
      = InstrumentationTimer.stop (InstrumentationTimer.construct name startT)
        endT tid inst
    ∧ (InstrumentationTimer.destruct
        (InstrumentationTimer.construct name startT) endT tid inst).2
      = { inst with
          mStreamContent := inst.mStreamContent
            ++ (if inst.mProfileCount > 0 then [','] else [])
            ++ profileRecord ⟨name, startT, endT, tid⟩
          mProfileCount := inst.mProfileCount + 1 }
    ∧ (InstrumentationTimer.destruct
        (InstrumentationTimer.construct name startT) endT tid inst).1.mStopped
      = true := by
  refine ⟨rfl, ?_, rfl⟩
  exact Instrumentor.writeProfile_open h _

/-- Witness for C1: a timer in a freshly begun session. -/
theorem claimC1_scope_exit_submits_once_witness :
    (Instrumentor.beginSession true ("T".data)
        Instrumentor.initialState).mStreamOpen = true
    ∧ (InstrumentationTimer.destruct (InstrumentationTimer.construct ("A".data) 0)
        5 3 (Instrumentor.beginSession true ("T".data)
          Instrumentor.initialState)).1.mStopped = true :=
  ⟨by decide,
   (claimC1_scope_exit_submits_once ("A".data) 0 5 3 _ (by decide)).2.2⟩

/-- Counterexample to claim C4: `Stop()` on an already stopped timer
is not a no-op.  After an explicit stop the timer is in the stopped
state, yet a second explicit `Stop()` submits another Measurement:
the sink's counter reaches 2 and the stream holds two records. -/
theorem claimC4_counterexample :
    ((InstrumentationTimer.stop (InstrumentationTimer.construct ("A".data) 0)
        5 3 (Instrumentor.beginSession true ("T".data)
          Instrumentor.initialState)).1.mStopped = true)
    ∧ (InstrumentationTimer.stop
        (InstrumentationTimer.stop (InstrumentationTimer.construct ("A".data) 0)
          5 3 (Instrumentor.beginSession true ("T".data)
            Instrumentor.initialState)).1
        9 3
        (InstrumentationTimer.stop (InstrumentationTimer.construct ("A".data) 0)
          5 3 (Instrumentor.beginSession true ("T".data)
            Instrumentor.initialState)).2).2.mProfileCount = 2
    ∧ (InstrumentationTimer.stop
        (InstrumentationTimer.stop (InstrumentationTimer.construct ("A".data) 0)
          5 3 (Instrumentor.beginSession true ("T".data)
            Instrumentor.initialState)).1
        9 3
        (InstrumentationTimer.stop (InstrumentationTimer.construct ("A".data) 0)
          5 3 (Instrumentor.beginSession true ("T".data)
            Instrumentor.initialState)).2).2.mStreamContent
      = Instrumentor.headerChars ++ profileRecord ⟨"A".data, 0, 5, 3⟩
        ++ [','] ++ profileRecord ⟨"A".data, 0, 9, 3⟩ := by
  refine ⟨rfl, rfl, by decide⟩

/-- Claim C4 (amended): `Stop()` itself is not guarded by the stopped
flag: called on an already stopped timer it performs one more
`WriteProfile` submission; only the automatic cleanup path (the
destructor) checks the flag, so the destructor is a no-op on a
stopped timer and the state machine has no transition back. -/
theorem claimC4_stop_unguarded_cleanup_guarded
    (t : InstrumentationTimer) (endT : Int) (tid : Nat)
    (inst : InstrumentorState) (h : t.mStopped = true) :
    InstrumentationTimer.stop t endT tid inst
      = ({ t with mStopped := true },
         Instrumentor.writeProfile inst ⟨t.mName, t.mStartTime, endT, tid⟩)
    ∧ InstrumentationTimer.destruct t endT tid inst = (t, inst) := by
  refine ⟨rfl, ?_⟩
  simp [InstrumentationTimer.destruct, h]

/-- Witness for the amended C4 at a concrete stopped timer. -/
theorem claimC4_stop_unguarded_cleanup_guarded_witness :
    ((InstrumentationTimer.stop (InstrumentationTimer.construct ("A".data) 0)
        5 3 Instrumentor.initialState).1.mStopped = true)
    ∧ InstrumentationTimer.destruct
        (InstrumentationTimer.stop (InstrumentationTimer.construct ("A".data) 0)
          5 3 Instrumentor.initialState).1 9 3 Instrumentor.initialState
      = ((InstrumentationTimer.stop (InstrumentationTimer.construct ("A".data) 0)
          5 3 Instrumentor.initialState).1, Instrumentor.initialState) :=
  ⟨by decide,
   (claimC4_stop_unguarded_cleanup_guarded _ 9 3 Instrumentor.initialState
     (by decide)).2⟩

namespace Instrumentor

/-- Ending an active session always leaves the sink inactive, with a
closed stream and a zeroed counter. -/
theorem endSession_active_reset {s : InstrumentorState}
    (h : s.mIsSessionActive = true) :
    (endSession s).mIsSessionActive = false
    ∧ (endSession s).mStreamOpen = false
    ∧ (endSession s).mProfileCount = 0 := by
  by_cases ho : s.mStreamOpen = true
  · rw [endSession_active_open h ho]
    exact ⟨rfl, rfl, rfl⟩
  · have ho' : s.mStreamOpen = false := by simpa using ho
    rw [endSession_active_closed h ho']
    exact ⟨rfl, ho', rfl⟩

/-- `BeginSession` on an inactive sink with a closed stream: session
becomes active, the counter is whatever it was, and when the open
succeeds and the counter was zero the first record is emitted right
after the header with no separating comma. -/
theorem begin_fresh_aux (s : InstrumentorState) (ok : Bool) (name : List Char)
    (h0a : s.mIsSessionActive = false) (h0c : s.mStreamOpen = false)
    (h0n : s.mProfileCount = 0) :
    (beginSession ok name s).mIsSessionActive = true
    ∧ (beginSession ok name s).mProfileCount = 0
    ∧ (ok = true → ∀ r : ProfileResult,
        (writeProfile (beginSession ok name s) r).mStreamContent
          = headerChars ++ profileRecord r) := by
  cases ok
  · rw [beginSession_inactive_closed_fail h0a h0c]
    exact ⟨rfl, h0n, fun hok => absurd hok (by simp)⟩
  · rw [beginSession_inactive_closed_ok h0a h0c]
    refine ⟨rfl, h0n, fun _ r => ?_⟩
    rw [writeProfile_open rfl r]
    simp [h0n]

end Instrumentor

/-! Claims about silent drops and the counter. -/

/-- Counterexample to claim C3: a `WriteMeasurement` made while no
session is active does change the sink's state: from the (reachable)
initial state, which is inactive with `event_count = 0`, the call
leaves `event_count = 1`. -/
theorem claimC3_counterexample :
    Instrumentor.initialState.mIsSessionActive = false
    ∧ Instrumentor.initialState.mProfileCount = 0
    ∧ (Instrumentor.writeProfile Instrumentor.initialState
        ⟨"A".data, 0, 1, 0⟩).mProfileCount = 1 :=
  ⟨rfl, rfl, rfl⟩

/-- Claim C3 (amended): a `WriteMeasurement` call made while no
session is active writes nothing to any output and reports no error
to the caller, but it is not state-preserving: `event_count` is
incremented.  (The bytes are dropped only because the stream of every
reachable inactive state is closed; the code has no active-session
check.) -/
theorem claimC3_inactive_write_only_counts (s : InstrumentorState)
    (r : ProfileResult) (h1 : Instrumentor.Reachable s)
    (h2 : s.mIsSessionActive = false) :
    Instrumentor.writeProfile s r
      = { s with mProfileCount := s.mProfileCount + 1 } := by
  have hg := Instrumentor.goodState_of_reachable h1
  exact Instrumentor.writeProfile_closed (hg.1 h2) r

/-- Witness for the amended C3 at the initial state. -/
theorem claimC3_inactive_write_only_counts_witness :
    Instrumentor.initialState.mIsSessionActive = false
    ∧ Instrumentor.writeProfile Instrumentor.initialState ⟨"A".data, 0, 1, 0⟩
      = { Instrumentor.initialState with
          mProfileCount := Instrumentor.initialState.mProfileCount + 1 } :=
  ⟨rfl,
   claimC3_inactive_write_only_counts Instrumentor.initialState
     ⟨"A".data, 0, 1, 0⟩ ⟨[], rfl⟩ rfl⟩

/-- Counterexample to claim C7: when the destination cannot be opened
`BeginSession` does not leave the sink without an active session --
the active flag is set before the open is attempted, so the sink
reports an active session. -/
theorem claimC7_counterexample :
    (Instrumentor.beginSession false ("T".data)
        Instrumentor.initialState).mIsSessionActive = true :=
  rfl

/-- Claim C7 (amended): if the destination cannot be opened,
`BeginSession` fails silently and no measurements are ever recorded:
the stream stays closed, no bytes are written anywhere, and every
subsequent `WriteMeasurement` is dropped except for its counter
increment; no error is surfaced.  However the sink is left with the
session marked ACTIVE, not inactive as the claim states. -/
theorem claimC7_failed_open_silent (s : InstrumentorState)
    (name : List Char) (h1 : Instrumentor.Reachable s)
    (h2 : s.mIsSessionActive = false) :
    (Instrumentor.beginSession false name s).mIsSessionActive = true
    ∧ (Instrumentor.beginSession false name s).mStreamOpen = false
    ∧ (Instrumentor.beginSession false name s).mStreamContent
      = s.mStreamContent
    ∧ (Instrumentor.beginSession false name s).mClosedFiles = s.mClosedFiles
    ∧ ∀ r : ProfileResult,
        Instrumentor.writeProfile (Instrumentor.beginSession false name s) r
          = { Instrumentor.beginSession false name s with
              mProfileCount :=
                (Instrumentor.beginSession false name s).mProfileCount + 1 } := by
  have hg := Instrumentor.goodState_of_reachable h1
  have hcl : s.mStreamOpen = false := hg.1 h2
  rw [Instrumentor.beginSession_inactive_closed_fail h2 hcl name]
  exact ⟨rfl, hcl, rfl, rfl, fun r =>
    @Instrumentor.writeProfile_closed
      { s with mIsSessionActive := true, mSessionName := name } hcl r⟩

/-- Witness for the amended C7 at the initial state. -/
theorem claimC7_failed_open_silent_witness :
    (Instrumentor.beginSession false ("T".data)
        Instrumentor.initialState).mIsSessionActive = true
    ∧ Instrumentor.writeProfile
        (Instrumentor.beginSession false ("T".data) Instrumentor.initialState)
        ⟨"A".data, 0, 1, 0⟩
      = { Instrumentor.beginSession false ("T".data) Instrumentor.initialState
          with mProfileCount :=
            (Instrumentor.beginSession false ("T".data)
              Instrumentor.initialState).mProfileCount + 1 } :=
  ⟨(claimC7_failed_open_silent Instrumentor.initialState ("T".data)
      ⟨[], rfl⟩ rfl).1,
   (claimC7_failed_open_silent Instrumentor.initialState ("T".data)
      ⟨[], rfl⟩ rfl).2.2.2.2 ⟨"A".data, 0, 1, 0⟩⟩

/-- Counterexample to claim C6: `BeginSession` does not reset
`event_count` to 0 regardless of the prior state.  After a stray
`WriteMeasurement` in the (reachable) inactive initial state, a
successful `BeginSession` returns with `event_count = 1`, and the
first measurement of the new session IS preceded by a separating
comma. -/
theorem claimC6_counterexample :
    (Instrumentor.beginSession true ("T".data)
        (Instrumentor.writeProfile Instrumentor.initialState
          ⟨"A".data, 0, 1, 0⟩)).mIsSessionActive = true
    ∧ (Instrumentor.beginSession true ("T".data)
        (Instrumentor.writeProfile Instrumentor.initialState
          ⟨"A".data, 0, 1, 0⟩)).mProfileCount = 1
    ∧ (Instrumentor.writeProfile
        (Instrumentor.beginSession true ("T".data)
          (Instrumentor.writeProfile Instrumentor.initialState
            ⟨"A".data, 0, 1, 0⟩)) ⟨"B".data, 2, 3, 0⟩).mStreamContent
      = Instrumentor.headerChars ++ [','] ++ profileRecord ⟨"B".data, 2, 3, 0⟩ := by
  refine ⟨rfl, rfl, by decide⟩

/-- Claim C6 (amended): after `BeginSession` the session is always
marked active; `event_count` is 0 -- and the first subsequent
`WriteMeasurement` of a successfully opened session is emitted right
after the header without a preceding comma -- provided a session was
active before the call (its End resets the counter) or the counter
was already 0.  A `WriteMeasurement` made while no session is active
leaves a nonzero counter that `BeginSession` does not reset. -/
theorem claimC6_begin_active_count (s : InstrumentorState) (ok : Bool)
    (name : List Char) (h1 : Instrumentor.Reachable s)
    (h2 : s.mIsSessionActive = true ∨ s.mProfileCount = 0) :
    (Instrumentor.beginSession ok name s).mIsSessionActive = true
    ∧ (Instrumentor.beginSession ok name s).mProfileCount = 0
    ∧ (ok = true → ∀ r : ProfileResult,
        (Instrumentor.writeProfile (Instrumentor.beginSession ok name s)
          r).mStreamContent
          = Instrumentor.headerChars ++ profileRecord r) := by
  by_cases ha : s.mIsSessionActive = true
  · rw [Instrumentor.beginSession_active ha]
    obtain ⟨e1, e2, e3⟩ := Instrumentor.endSession_active_reset ha
    exact Instrumentor.begin_fresh_aux _ ok name e1 e2 e3
  · have ha' : s.mIsSessionActive = false := by simpa using ha
    rcases h2 with h2 | h2
    · exact absurd h2 ha
    · have hc := (Instrumentor.goodState_of_reachable h1).1 ha'
      exact Instrumentor.begin_fresh_aux _ ok name ha' hc h2

/-- Witness for the amended C6 at the initial state. -/
theorem claimC6_begin_active_count_witness :
    Instrumentor.initialState.mProfileCount = 0
    ∧ (Instrumentor.beginSession true ("T".data)
        Instrumentor.initialState).mProfileCount = 0 :=
  ⟨rfl,
   (claimC6_begin_active_count Instrumentor.initialState true ("T".data)
     ⟨[], rfl⟩ (Or.inr rfl)).2.1⟩

namespace Instrumentor

/-- Projections of a successful `BeginSession` from any reachable
state whose counter is clean (prior session active, or counter 0). -/
theorem begin_true_projections (s : InstrumentorState) (name : List Char)
    (h1 : Reachable s)
    (h2 : s.mIsSessionActive = true ∨ s.mProfileCount = 0) :
    (beginSession true name s).mIsSessionActive = true
    ∧ (beginSession true name s).mStreamOpen = true
    ∧ (beginSession true name s).mStreamContent = headerChars
    ∧ (beginSession true name s).mProfileCount = 0 := by
  by_cases ha : s.mIsSessionActive = true
  · rw [beginSession_active ha]
    obtain ⟨e1, e2, e3⟩ := endSession_active_reset ha
    rw [beginSession_inactive_closed_ok e1 e2 name]
    exact ⟨rfl, rfl, rfl, e3⟩
  · have ha' : s.mIsSessionActive = false := by simpa using ha
    rcases h2 with h2 | h2
    · exact absurd h2 ha
    · have hc := (goodState_of_reachable h1).1 ha'
      rw [beginSession_inactive_closed_ok ha' hc name]
      exact ⟨rfl, rfl, rfl, h2⟩

/-- Running the writes of a session and then `EndSession`, from a
state holding a fresh header: the finished file is exactly the
session document. -/
theorem run_session_from (t : InstrumentorState) (rs : List ProfileResult)
    (b1 : t.mIsSessionActive = true) (b2 : t.mStreamOpen = true)
    (b3 : t.mStreamContent = headerChars) (b4 : t.mProfileCount = 0) :
    (run t (rs.map Op.write ++ [Op.endS])).mClosedFiles
      = sessionDocument rs :: t.mClosedFiles := by
  have hap : run t (rs.map Op.write ++ [Op.endS])
      = run (run t (rs.map Op.write)) [Op.endS] := by
    simp [run, List.foldl_append]
  rw [hap, run_writes_open b2 rs]
  obtain ⟨nm, so, sc, cf, pc, act⟩ := t
  cases so
  · simp at b2
  · cases act
    · simp at b1
    · simp only [InstrumentorState.mStreamContent] at b3
      simp only [InstrumentorState.mProfileCount] at b4
      subst b3
      subst b4
      simp [run, step, endSession, writeFooter, writeStream, closeStream,
        sessionDocument, emitFrom_zero, List.append_assoc]

end Instrumentor

/-! Claims about the session lifecycle and the output document. -/

/-- Claim C5: a `BeginSession` made while a session is already active
(with an open destination holding that prior session's header and
records) first performs the End operation on the prior session: its
footer is appended, its file is closed syntactically complete -- a
rendering of the prior session's JSON document, no data lost --
before the new destination is opened and the new session activated
with a fresh header and a zero counter. -/
theorem claimC5_begin_finalizes_prior (s : InstrumentorState)
    (name : List Char) (rs : List ProfileResult)
    (h1 : s.mIsSessionActive = true) (h2 : s.mStreamOpen = true)
    (h3 : s.mStreamContent
      = Instrumentor.headerChars ++ joinComma (rs.map profileRecord))
    (h4 : ∀ r ∈ rs, PlainLabel r.mName) :
    Instrumentor.beginSession true name s
      = Instrumentor.beginSession true name (Instrumentor.endSession s)
    ∧ (Instrumentor.beginSession true name s).mClosedFiles
      = sessionDocument rs :: s.mClosedFiles
    ∧ Renders (traceDocVal rs) (sessionDocument rs)
    ∧ (Instrumentor.beginSession true name s).mIsSessionActive = true
    ∧ (Instrumentor.beginSession true name s).mStreamOpen = true
    ∧ (Instrumentor.beginSession true name s).mStreamContent
      = Instrumentor.headerChars
    ∧ (Instrumentor.beginSession true name s).mProfileCount = 0 := by
  obtain ⟨e1, e2, e3⟩ := Instrumentor.endSession_active_reset h1
  have hb := Instrumentor.beginSession_active h1 true name
  have heq : Instrumentor.beginSession true name s
      = { Instrumentor.endSession s with
          mIsSessionActive := true
          mStreamOpen := true
          mStreamContent := Instrumentor.headerChars
          mSessionName := name } := by
    rw [hb]
    exact Instrumentor.beginSession_inactive_closed_ok e1 e2 name
  have hcf : (Instrumentor.endSession s).mClosedFiles
      = (s.mStreamContent ++ Instrumentor.footerChars) :: s.mClosedFiles := by
    rw [Instrumentor.endSession_active_open h1 h2]
  refine ⟨hb, ?_, renders_sessionDocument rs h4, ?_, ?_, ?_, ?_⟩
  · rw [heq]
    show (Instrumentor.endSession s).mClosedFiles
      = sessionDocument rs :: s.mClosedFiles
    rw [hcf, h3]
    simp [sessionDocument, List.append_assoc]
  · rw [heq]
  · rw [heq]
  · rw [heq]
  · rw [heq]
    show (Instrumentor.endSession s).mProfileCount = 0
    exact e3

/-- Witness for C5: a second `BeginSession` over a freshly begun
empty session finalizes the prior (empty) document. -/
theorem claimC5_begin_finalizes_prior_witness :
    (Instrumentor.beginSession true ("U".data)
        (Instrumentor.beginSession true ("T".data)
          Instrumentor.initialState)).mClosedFiles
      = sessionDocument []
        :: (Instrumentor.beginSession true ("T".data)
            Instrumentor.initialState).mClosedFiles :=
  (claimC5_begin_finalizes_prior
    (Instrumentor.beginSession true ("T".data) Instrumentor.initialState)
    ("U".data) [] (by decide) (by decide) (by decide) (by decide)).2.1

/-- Counterexample to claim C2: a session begun after a stray
`WriteMeasurement` made while no session was active.  The session
sees one `WriteMeasurement` (N = 1), yet its finished document has a
separating comma before the first (and only) record of the session,
and is not the well-formed one-record session document. -/
theorem claimC2_counterexample :
    (Instrumentor.run Instrumentor.initialState
        [Op.write ⟨"A".data, 0, 1, 0⟩, Op.beginS true ("T".data),
         Op.write ⟨"B".data, 2, 3, 0⟩, Op.endS]).mClosedFiles
      = [Instrumentor.headerChars ++ [',']
          ++ (profileRecord ⟨"B".data, 2, 3, 0⟩ ++ Instrumentor.footerChars)]
    ∧ Instrumentor.headerChars ++ [',']
        ++ (profileRecord ⟨"B".data, 2, 3, 0⟩ ++ Instrumentor.footerChars)
      ≠ sessionDocument [⟨"B".data, 2, 3, 0⟩] :=
  ⟨by decide, by decide⟩

/-- Claim C2 (amended): for a session begun by `BeginSession` and
ended by `EndSession` with N `WriteMeasurement` calls in between, the
finished file is the session document -- header, the N records joined
by separating commas (none before the first record, none trailing),
footer -- and that document is syntactically valid JSON, a rendering
of the JSON document value whose `traceEvents` array holds exactly
the N event objects.  Amendment: the sink's counter must be clean at
`BeginSession` (a prior active session or counter 0, as from the
initial state or after any `EndSession`; a stray inactive
`WriteMeasurement` leaves a counter that breaks the first comma), and
labels carry no backslash or control characters (the spec's accepted
escaping limitation). -/
theorem claimC2_session_document (s : InstrumentorState) (name : List Char)
    (rs : List ProfileResult) (h1 : Instrumentor.Reachable s)
    (h2 : s.mIsSessionActive = true ∨ s.mProfileCount = 0)
    (h3 : ∀ r ∈ rs, PlainLabel r.mName) :
    (Instrumentor.run s
        (Op.beginS true name :: (rs.map Op.write ++ [Op.endS]))).mClosedFiles.head?
      = some (sessionDocument rs)
    ∧ Renders (traceDocVal rs) (sessionDocument rs)
    ∧ (rs.map eventObj).length = rs.length := by
  obtain ⟨b1, b2, b3, b4⟩ := Instrumentor.begin_true_projections s name h1 h2
  have hrun : Instrumentor.run s
      (Op.beginS true name :: (rs.map Op.write ++ [Op.endS]))
      = Instrumentor.run (Instrumentor.beginSession true name s)
        (rs.map Op.write ++ [Op.endS]) := rfl
  rw [hrun, Instrumentor.run_session_from _ rs b1 b2 b3 b4]
  exact ⟨rfl, renders_sessionDocument rs h3, by simp⟩

/-- Witness for the amended C2: one measurement in a session begun at
the initial state. -/
theorem claimC2_session_document_witness :
    (Instrumentor.run Instrumentor.initialState
        (Op.beginS true ("T".data)
          :: ([⟨"A".data, 0, 1, 0⟩].map Op.write ++ [Op.endS]))).mClosedFiles.head?
      = some (sessionDocument [⟨"A".data, 0, 1, 0⟩]) :=
  (claimC2_session_document Instrumentor.initialState ("T".data)
    [⟨"A".data, 0, 1, 0⟩] ⟨[], rfl⟩ (Or.inr rfl) (by decide)).1

/-- A JSON string literal's bytes: the content between two double
quotes. -/
def quotedText (s : List Char) : List Char := [dq] ++ s ++ [dq]

/-- The bytes of a one-line JSON object with the given keys and
already-rendered values, in the given order, with no whitespace. -/
def objectText (fs : List (List Char × List Char)) : List Char :=
  (lbrace :: joinComma (fs.map fun kv => [dq] ++ kv.1 ++ [dq, ':'] ++ kv.2))
    ++ [rbrace]

/-- Claim C8: every event object emitted by `WriteProfile` is
appended to the stream (after the optional separating comma) as an
object with exactly the seven fields `cat`, `dur`, `name`, `ph`,
`pid`, `tid`, `ts` in that key order: `cat` the constant string
"function", `dur` the end minus start timestamp, `name` the sanitized
label, `ph` the constant string "X", `pid` the constant 0, `tid` the
measurement's thread id, `ts` the start timestamp. -/
theorem claimC8_record_fields (s : InstrumentorState) (r : ProfileResult)
    (h : s.mStreamOpen = true) :
    (Instrumentor.writeProfile s r).mStreamContent
      = s.mStreamContent ++ (if s.mProfileCount > 0 then [','] else [])
        ++ profileRecord r
    ∧ profileRecord r = objectText
        [("cat".data, quotedText ("function".data)),
         ("dur".data, intText (r.mExecutionEnd - r.mExecutionStart)),
         ("name".data, quotedText (sanitize r.mName)),
         ("ph".data, quotedText ("X".data)),
         ("pid".data, intText 0),
         ("tid".data, natText r.mThreadID),
         ("ts".data, intText r.mExecutionStart)] := by
  constructor
  · rw [Instrumentor.writeProfile_open h r]
  · rw [profileRecord_shape r]
    simp [objectText, joinComma, commaRecords, quotedText,
      List.append_assoc,
      (by decide : "cat".data = ['c', 'a', 't']),
      (by decide : "dur".data = ['d', 'u', 'r']),
      (by decide : "name".data = ['n', 'a', 'm', 'e']),
      (by decide : "ph".data = ['p', 'h']),
      (by decide : "pid".data = ['p', 'i', 'd']),
      (by decide : "tid".data = ['t', 'i', 'd']),
      (by decide : "ts".data = ['t', 's']),
      (by decide : "function".data
        = ['f', 'u', 'n', 'c', 't', 'i', 'o', 'n']),
      (by decide : "X".data = ['X'])]

/-- Witness for C8 at a concrete open-session state and measurement. -/
theorem claimC8_record_fields_witness :
    profileRecord ⟨"A".data, 0, 5, 3⟩ = objectText
        [("cat".data, quotedText ("function".data)),
         ("dur".data, intText (5 - 0)),
         ("name".data, quotedText (sanitize ("A".data))),
         ("ph".data, quotedText ("X".data)),
         ("pid".data, intText 0),
         ("tid".data, natText 3),
         ("ts".data, intText 0)] :=
  (claimC8_record_fields
    (Instrumentor.beginSession true ("T".data) Instrumentor.initialState)
    ⟨"A".data, 0, 5, 3⟩ (by decide)).2

/-- Claim C9: `WriteProfile` emits as the name exactly `sanitize` of
the label, and `sanitize` replaces every occurrence of the double
quote by a single quote and changes nothing else: the length is
preserved, each position holds the original character unless it was a
double quote (then a single quote), and no double quote survives;
backslashes and control characters pass through unchanged (they are
not double quotes, so the pointwise clause leaves them in place). -/
theorem claimC9_sanitize_quotes_only (l : List Char) :
    (sanitize l).length = l.length
    ∧ (∀ i : Nat, (sanitize l)[i]?
        = (l[i]?).map fun c => if c = dq then sqc else c)
    ∧ dq ∉ sanitize l
    ∧ ∀ r : ProfileResult,
        profileRecord r
          = (objOpen ++ catPiece ++ durPre
              ++ intText (r.mExecutionEnd - r.mExecutionStart) ++ [',']
              ++ namePre)
            ++ sanitize r.mName
            ++ (nameSuf ++ phPiece ++ pidPiece ++ tidPre
              ++ natText r.mThreadID ++ [',']
              ++ tsPre ++ intText r.mExecutionStart ++ objClose) := by
  refine ⟨by simp [sanitize], ?_, ?_, ?_⟩
  · intro i
    simp [sanitize, List.getElem?_map]
  · intro hmem
    simp only [sanitize, List.mem_map] at hmem
    obtain ⟨a, ha, heq⟩ := hmem
    by_cases hq : a = dq
    · rw [if_pos hq] at heq
      exact absurd heq (by decide)
    · rw [if_neg hq] at heq
      exact hq heq
  · intro r
    simp [profileRecord, List.append_assoc]

/-- Witness for C9: the spec's example label, with its two quotes
replaced by single quotes. -/
theorem claimC9_sanitize_quotes_only_witness :
    (sanitize ("he said \"hi\"".data)).length = ("he said \"hi\"".data).length
    ∧ sanitize ("he said \"hi\"".data)
      = "he said ".data ++ [sqc] ++ "hi".data ++ [sqc] :=
  ⟨(claimC9_sanitize_quotes_only ("he said \"hi\"".data)).1, by decide⟩

/-! The session name and the output: noninterference machinery. -/

namespace Instrumentor

/-- The sink state with the stored session name blanked. -/
def stripName (s : InstrumentorState) : InstrumentorState :=
  { s with mSessionName := [] }

end Instrumentor

/-- The call with any `BeginSession` name blanked. -/
def Op.eraseName : Op → Op
  | Op.beginS ok _ => Op.beginS ok []
  | o => o

namespace Instrumentor

theorem strip_writeStream (s : InstrumentorState) (cs : List Char) :
    stripName (writeStream s cs) = writeStream (stripName s) cs := by
  obtain ⟨nm, so, sc, cf, pc, act⟩ := s
  cases so <;> rfl

theorem strip_openStream (ok : Bool) (s : InstrumentorState) :
    stripName (openStream ok s) = openStream ok (stripName s) := by
  obtain ⟨nm, so, sc, cf, pc, act⟩ := s
  cases so <;> cases ok <;> rfl

theorem strip_closeStream (s : InstrumentorState) :
    stripName (closeStream s) = closeStream (stripName s) := by
  obtain ⟨nm, so, sc, cf, pc, act⟩ := s
  cases so <;> rfl

theorem strip_endSession (s : InstrumentorState) :
    stripName (endSession s) = endSession (stripName s) := by
  obtain ⟨nm, so, sc, cf, pc, act⟩ := s
  cases act <;> cases so <;> rfl

theorem strip_beginSession (ok : Bool) (name : List Char)
    (s : InstrumentorState) :
    stripName (beginSession ok name s) = beginSession ok [] (stripName s) := by
  obtain ⟨nm, so, sc, cf, pc, act⟩ := s
  cases act <;> cases so <;> cases ok <;> rfl

theorem strip_writeProfile (s : InstrumentorState) (r : ProfileResult) :
    stripName (writeProfile s r) = writeProfile (stripName s) r := by
  obtain ⟨nm, so, sc, cf, pc, act⟩ := s
  cases so <;> by_cases hp : pc > 0 <;>
    simp [writeProfile, writeStream, stripName, hp]

theorem strip_step (s : InstrumentorState) (o : Op) :
    stripName (step s o) = step (stripName s) o.eraseName := by
  cases o with
  | beginS ok name => exact strip_beginSession ok name s
  | endS => exact strip_endSession s
  | write r => exact strip_writeProfile s r

theorem strip_run (s1 s2 : InstrumentorState) (ops1 ops2 : List Op)
    (hs : stripName s1 = stripName s2)
    (hops : ops1.map Op.eraseName = ops2.map Op.eraseName) :
    stripName (run s1 ops1) = stripName (run s2 ops2) := by
  induction ops1 generalizing s1 s2 ops2 with
  | nil =>
      cases ops2 with
      | nil => exact hs
      | cons o t => simp at hops
  | cons o1 t1 ih =>
      cases ops2 with
      | nil => simp at hops
      | cons o2 t2 =>
          simp only [List.map_cons, List.cons.injEq] at hops
          obtain ⟨ho, ht⟩ := hops
          rw [run_cons, run_cons]
          refine ih _ _ _ ?_ ht
          rw [strip_step, strip_step, ho, hs]

end Instrumentor

/-- Claim C10: the session name passed to `BeginSession` never
appears in and has no effect on the output: two call sequences
identical up to the names given to `BeginSession` produce
byte-identical current stream content and byte-identical closed
output files (the name is stored in `m_SessionName` and never
written to the stream by any operation). -/
theorem claimC10_name_no_output_effect (ops1 ops2 : List Op)
    (h : ops1.map Op.eraseName = ops2.map Op.eraseName) :
    (Instrumentor.run Instrumentor.initialState ops1).mStreamContent
      = (Instrumentor.run Instrumentor.initialState ops2).mStreamContent
    ∧ (Instrumentor.run Instrumentor.initialState ops1).mClosedFiles
      = (Instrumentor.run Instrumentor.initialState ops2).mClosedFiles := by
  have hr := Instrumentor.strip_run Instrumentor.initialState
    Instrumentor.initialState ops1 ops2 rfl h
  have h1 : (Instrumentor.stripName
        (Instrumentor.run Instrumentor.initialState ops1)).mStreamContent
      = (Instrumentor.stripName
        (Instrumentor.run Instrumentor.initialState ops2)).mStreamContent :=
    congrArg InstrumentorState.mStreamContent hr
  have h2 : (Instrumentor.stripName
        (Instrumentor.run Instrumentor.initialState ops1)).mClosedFiles
      = (Instrumentor.stripName
        (Instrumentor.run Instrumentor.initialState ops2)).mClosedFiles :=
    congrArg InstrumentorState.mClosedFiles hr
  exact ⟨h1, h2⟩

/-- Witness for C10: two sessions differing only in their name
produce the same closed file. -/
theorem claimC10_name_no_output_effect_witness :
    ([Op.beginS true ("A".data), Op.endS].map Op.eraseName
      = [Op.beginS true ("B".data), Op.endS].map Op.eraseName)
    ∧ (Instrumentor.run Instrumentor.initialState
        [Op.beginS true ("A".data), Op.endS]).mClosedFiles
      = (Instrumentor.run Instrumentor.initialState
        [Op.beginS true ("B".data), Op.endS]).mClosedFiles :=
  ⟨rfl, (claimC10_name_no_output_effect _ _ rfl).2⟩
